import Mathlib

/-!
Shallow embedding of the blog application in src/main.py.

The application is a Flask CRUD layer over three SQLAlchemy tables
(users, blog_posts, comments) with cookie-session authentication.
We model the database as lists of rows plus autoincrement counters,
the session as the optional id of the logged-in user, and each route
handler as a pure function from the submitted form, the session and
the database to a result (new database, new session, flashed messages,
and a redirect or render response).  A handler that would raise an
unhandled Python exception is modelled with Except: the error string
names the exception the interpreter would raise.
-/

/-- Row of the users table (src/main.py lines 36-44).  The password
column stores the string produced by generate_password_hash. -/
structure User where
  id : Nat
  email : String
  password : String
  name : String
deriving DecidableEq, Repr

/-- Row of the blog_posts table (src/main.py lines 47-59).  The
author_id foreign-key column has no nullable=False constraint, hence
Option. -/
structure BlogPost where
  id : Nat
  authorId : Option Nat
  title : String
  subtitle : String
  date : String
  body : String
  imgUrl : String
deriving DecidableEq, Repr

/-- Row of the comments table (src/main.py lines 62-69).  Both
foreign-key columns are nullable in the schema, hence Option. -/
structure Comment where
  id : Nat
  text : String
  authorId : Option Nat
  postId : Option Nat
deriving DecidableEq, Repr

/-- The relational store: the three tables plus the autoincrement
counters that assign primary keys on insert. -/
structure DB where
  users : List User
  posts : List BlogPost
  comments : List Comment
  nextUserId : Nat
  nextPostId : Nat
  nextCommentId : Nat
deriving DecidableEq, Repr

/-- The flask_login session state: either no identity bound
(current_user.is_authenticated is false) or the id of the logged-in
User row. -/
inductive Session where
  | anonymous
  | loggedIn (userId : Nat)
deriving DecidableEq, Repr

/-- The messages the handlers pass to flash, abstracted from their
exact wording in src/main.py lines 99, 129 and 156. -/
inductive Flash where
  | alreadySignedUp
  | incorrectPassword
  | needLoginToComment
deriving DecidableEq, Repr

/-- Redirect targets produced via url_for in src/main.py. -/
inductive Target where
  | get_all_posts
  | login
  | show_post (postId : Nat)
deriving DecidableEq, Repr

/-- A handler either redirects or renders a template. -/
inductive Response where
  | redirect (target : Target)
  | render (template : String)
deriving DecidableEq, Repr

/-- Observable outcome of one request: the database and session after
the handler committed, the messages it flashed, and its response. -/
structure HandlerResult where
  db : DB
  session : Session
  flashes : List Flash
  response : Response
deriving DecidableEq, Repr

/-- Form submitted to the register route; validates is the value
validate_on_submit() returns for this request (true only on a POST
whose field validators, CSRF token included, all pass). -/
structure RegisterForm where
  email : String
  password : String
  name : String
  validates : Bool
deriving DecidableEq, Repr

/-- Form submitted to the login route. -/
structure LoginForm where
  email : String
  password : String
  validates : Bool
deriving DecidableEq, Repr

/-- Comment form on the post detail page. -/
structure CommentForm where
  body : String
  validates : Bool
deriving DecidableEq, Repr

/-- Form for creating or editing a post. -/
structure CreatePostForm where
  title : String
  subtitle : String
  imgUrl : String
  body : String
  validates : Bool
deriving DecidableEq, Repr

/-- Models werkzeug.security.generate_password_hash as called in
src/main.py line 102.  Deterministic abstraction of the external
hasher: the result records the method, a salt of the requested length
and the password, so that check_password_hash can verify it; what
matters for the claims is that the stored string is the hasher output,
never the clear password itself. -/
def generate_password_hash (password : String) (method : String) (salt_length : Nat) : String :=
  method ++ "$" ++ String.mk (List.replicate salt_length 'x') ++ "$" ++ password

/-- Models werkzeug.security.check_password_hash for hashes produced by
this application (method pbkdf2:sha256, salt length 8, line 102). -/
def check_password_hash (pwhash : String) (password : String) : Bool :=
  pwhash == generate_password_hash password "pbkdf2:sha256" 8

/-- The failure condition of the admin_only decorator, src/main.py
line 75: not current_user.is_authenticated or current_user.id != 1. -/
def admin_denied (s : Session) : Bool :=
  match s with
  | .anonymous => true
  | .loggedIn uid => uid != 1

/-- The admin_only decorator, src/main.py lines 72-78: if the check
fails, redirect to get_all_posts without invoking the wrapped handler;
otherwise invoke it. -/
def admin_only (f : Session → DB → Except String HandlerResult)
    (s : Session) (db : DB) : Except String HandlerResult :=
  if admin_denied s then
    .ok { db := db, session := s, flashes := [], response := .redirect .get_all_posts }
  else
    f s db

/-- The result the guard returns on denial. -/
def guard_redirect (s : Session) (db : DB) : HandlerResult :=
  { db := db, session := s, flashes := [], response := .redirect .get_all_posts }

/-- The get_all_posts route, src/main.py lines 86-90: public listing,
reads all posts and renders index.html. -/
def get_all_posts (s : Session) (db : DB) : HandlerResult :=
  { db := db, session := s, flashes := [], response := .render "index.html" }

/-- The register route, src/main.py lines 93-112. -/
def register (form : RegisterForm) (s : Session) (db : DB) : HandlerResult :=
  if form.validates then
    if (db.users.find? fun u => u.email == form.email).isSome then
      { db := db, session := s, flashes := [Flash.alreadySignedUp],
        response := .redirect .login }
    else
      let hashed := generate_password_hash form.password "pbkdf2:sha256" 8
      let newUser : User :=
        { id := db.nextUserId, email := form.email, password := hashed, name := form.name }
      { db := { db with users := db.users ++ [newUser], nextUserId := db.nextUserId + 1 },
        session := .loggedIn newUser.id, flashes := [],
        response := .redirect .get_all_posts }
  else
    { db := db, session := s, flashes := [], response := .render "register.html" }

/-- Truth value of the condition on src/main.py line 121.  The source
writes if login_form.validate_on_submit with no call parentheses: the
condition is the bound method object itself, and a bound method object
is always truthy in Python, whatever validation would have returned. -/
def method_object_truthiness : Bool := true

/-- The login route, src/main.py lines 115-133.  The form argument
carries in validates what validate_on_submit() would return, but the
source never consults it: line 121 tests the bound method object. -/
def login (form : LoginForm) (s : Session) (db : DB) : HandlerResult :=
  if method_object_truthiness then
    match db.users.find? fun u => u.email == form.email with
    | some user =>
      if check_password_hash user.password form.password then
        { db := db, session := .loggedIn user.id, flashes := [],
          response := .redirect .get_all_posts }
      else
        { db := db, session := s, flashes := [Flash.incorrectPassword],
          response := .render "login.html" }
    | none =>
      { db := db, session := s, flashes := [], response := .render "login.html" }
  else
    { db := db, session := s, flashes := [], response := .render "login.html" }

/-- The show_post route, src/main.py lines 143-158.  BlogPost.query.get
may return no row; a comment inserted then carries a null post_id,
because parent_post is set to that absent value. -/
def show_post (postId : Nat) (form : CommentForm) (s : Session) (db : DB) : HandlerResult :=
  let requestedPost := db.posts.find? fun p => p.id == postId
  if form.validates then
    match s with
    | .loggedIn uid =>
      let newComment : Comment :=
        { id := db.nextCommentId, text := form.body, authorId := some uid,
          postId := requestedPost.map (fun p => p.id) }
      { db := { db with
                  comments := db.comments ++ [newComment],
                  nextCommentId := db.nextCommentId + 1 },
        session := s, flashes := [], response := .render "post.html" }
    | .anonymous =>
      { db := db, session := s, flashes := [Flash.needLoginToComment],
        response := .redirect .login }
  else
    { db := db, session := s, flashes := [], response := .render "post.html" }

/-- Body of the contact route, src/main.py lines 167-170. -/
def contact_inner (s : Session) (db : DB) : Except String HandlerResult :=
  .ok { db := db, session := s, flashes := [], response := .render "contact.html" }

/-- The contact route with its admin_only guard. -/
def contact : Session → DB → Except String HandlerResult :=
  admin_only contact_inner

/-- Body of the add_new_post route, src/main.py lines 173-189; today is
the formatted date.today() string.  Reading current_user.id on an
anonymous session would raise, modelled as an error. -/
def add_new_post_inner (form : CreatePostForm) (today : String)
    (s : Session) (db : DB) : Except String HandlerResult :=
  if form.validates then
    match s with
    | .loggedIn uid =>
      let newPost : BlogPost :=
        { id := db.nextPostId, authorId := some uid, title := form.title,
          subtitle := form.subtitle, date := today, body := form.body,
          imgUrl := form.imgUrl }
      .ok { db := { db with posts := db.posts ++ [newPost], nextPostId := db.nextPostId + 1 },
            session := s, flashes := [], response := .redirect .get_all_posts }
    | .anonymous =>
      .error "AttributeError: anonymous user has no id attribute"
  else
    .ok { db := db, session := s, flashes := [], response := .render "make-post.html" }

/-- The add_new_post route with its admin_only guard. -/
def add_new_post (form : CreatePostForm) (today : String) : Session → DB → Except String HandlerResult :=
  admin_only (add_new_post_inner form today)

/-- Body of the edit_post route, src/main.py lines 192-210.  When the
looked-up post is absent, line 197 reads post.title on None and the
request raises.  On a valid submission the found row is mutated in
place in its four editable fields and committed. -/
def edit_post_inner (postId : Nat) (form : CreatePostForm)
    (s : Session) (db : DB) : Except String HandlerResult :=
  match db.posts.find? fun p => p.id == postId with
  | none => .error "AttributeError: NoneType object has no attribute title"
  | some post =>
    if form.validates then
      let updated : BlogPost :=
        { post with
            title := form.title, subtitle := form.subtitle,
            imgUrl := form.imgUrl, body := form.body }
      .ok { db := { db with posts := db.posts.map (fun p => if p.id == postId then updated else p) },
            session := s, flashes := [],
            response := .redirect (.show_post post.id) }
    else
      .ok { db := db, session := s, flashes := [], response := .render "make-post.html" }

/-- The edit_post route with its admin_only guard. -/
def edit_post (postId : Nat) (form : CreatePostForm) : Session → DB → Except String HandlerResult :=
  admin_only (edit_post_inner postId form)

/-- Body of the delete_post route, src/main.py lines 213-219.  No
existence check: when BlogPost.query.get returns no row, the call
db.session.delete on None raises an UnmappedInstanceError. -/
def delete_post_inner (postId : Nat) (s : Session) (db : DB) : Except String HandlerResult :=
  match db.posts.find? fun p => p.id == postId with
  | none => .error "UnmappedInstanceError: session.delete called on None"
  | some _ =>
    .ok { db := { db with posts := db.posts.filter fun p => p.id != postId },
          session := s, flashes := [], response := .redirect .get_all_posts }

/-- The delete_post route with its admin_only guard. -/
def delete_post (postId : Nat) : Session → DB → Except String HandlerResult :=
  admin_only (delete_post_inner postId)

/-- Startup outcome of the process: either the app object is built and
serving continues, carrying the configured secret key, or the process
terminates with a diagnostic. -/
inductive StartupOutcome where
  | started (secretKey : Option String)
  | terminated (diagnostic : String)
deriving DecidableEq, Repr

/-- Startup configuration, src/main.py lines 17-18: the SECRET_KEY
config entry is set to os.environ.get of SECRET_KEY, which yields a
silent None when the variable is absent, and execution continues
unconditionally. -/
def app_startup (env : String → Option String) : StartupOutcome :=
  .started (env "SECRET_KEY")

/-! Concrete fixtures used by the witnesses and by the evaluations of
the failing inputs. -/

/-- A registered user whose stored password is the hash of pw. -/
def alice : User :=
  { id := 1, email := "a@x.com", password := generate_password_hash "pw" "pbkdf2:sha256" 8,
    name := "Alice" }

/-- A store holding only the user alice. -/
def db_alice : DB :=
  { users := [alice], posts := [], comments := [], nextUserId := 2, nextPostId := 1,
    nextCommentId := 1 }

/-- An existing post authored by user 1. -/
def post1 : BlogPost :=
  { id := 1, authorId := some 1, title := "T1", subtitle := "S1", date := "May 01, 2024",
    body := "B1", imgUrl := "http://x/i.png" }

/-- The store db_alice together with post1. -/
def db_post1 : DB :=
  { db_alice with posts := [post1], nextPostId := 2 }

/-- A validating post-creation form. -/
def sample_post_form : CreatePostForm :=
  { title := "T2", subtitle := "S2", imgUrl := "http://x/j.png", body := "B2", validates := true }

/-- A validating comment form. -/
def sample_comment_form : CommentForm :=
  { body := "hi", validates := true }

/-- The hasher output is never the clear password: the method tag and
the salt make it strictly longer. -/
theorem generate_password_hash_ne_clear (pw method : String) (n : Nat) :
    generate_password_hash pw method n ≠ pw := by
  intro h
  have hlen := congrArg String.length h
  have h1 : ("$" : String).length = 1 := rfl
  simp [generate_password_hash, String.length_append, String.length_mk,
    List.length_replicate, h1] at hlen

/-- C1: for every request to one of the admin-guarded routes (new-post,
edit-post, delete, contact) whose session is unauthenticated or bound
to a user id other than 1, the guard answers the redirect to the post
listing without invoking the wrapped handler, leaving the database and
in particular the Post table unchanged, regardless of the payload. -/
theorem admin_guard_short_circuits (s : Session) (db : DB) (form : CreatePostForm)
    (today : String) (pid qid : Nat) (h : admin_denied s = true) :
    add_new_post form today s db = .ok (guard_redirect s db) ∧
    edit_post pid form s db = .ok (guard_redirect s db) ∧
    delete_post qid s db = .ok (guard_redirect s db) ∧
    contact s db = .ok (guard_redirect s db) := by
  refine ⟨?_, ?_, ?_, ?_⟩ <;>
    simp [add_new_post, edit_post, delete_post, contact, admin_only, guard_redirect, h]

/-- Witness for C1: the anonymous session is denied on all four guarded
routes over a concrete store. -/
theorem admin_guard_short_circuits_witness :
    admin_denied Session.anonymous = true ∧
    add_new_post sample_post_form "June 01, 2024" Session.anonymous db_post1 =
      .ok (guard_redirect Session.anonymous db_post1) ∧
    edit_post 1 sample_post_form Session.anonymous db_post1 =
      .ok (guard_redirect Session.anonymous db_post1) ∧
    delete_post 1 Session.anonymous db_post1 =
      .ok (guard_redirect Session.anonymous db_post1) ∧
    contact Session.anonymous db_post1 =
      .ok (guard_redirect Session.anonymous db_post1) :=
  ⟨rfl, admin_guard_short_circuits Session.anonymous db_post1 sample_post_form
    "June 01, 2024" 1 1 rfl⟩

/-- A login submission whose validation fails. -/
def invalid_login_form : LoginForm :=
  { email := "a@x.com", password := "pw", validates := false }

/-- C2: evaluation at the failing input.  A login submission whose form
validation fails (validates is false) nevertheless reaches the store
lookup and establishes a session, because line 121 of the source tests
the truthiness of the bound method validate_on_submit instead of
calling it, so the spec requirement that a failing validation causes
no lookup and no session is violated by the code. -/
theorem login_ignores_validation_failure :
    invalid_login_form.validates = false ∧
    login invalid_login_form Session.anonymous db_alice =
      { db := db_alice, session := Session.loggedIn 1, flashes := [],
        response := .redirect .get_all_posts } := by
  constructor <;> rfl

/-- C3: evaluation at the failing input.  The first admin delete of
post 1 succeeds; the immediately repeated delete of the now-missing
id raises an unhandled error instead of completing as a no-op or
not-found, because the handler passes the empty lookup result straight
to the session delete call. -/
theorem delete_missing_post_raises :
    delete_post 1 (Session.loggedIn 1) db_post1 =
      .ok { db := { db_post1 with posts := [] }, session := Session.loggedIn 1,
            flashes := [], response := .redirect .get_all_posts } ∧
    delete_post 1 (Session.loggedIn 1) { db_post1 with posts := [] } =
      .error "UnmappedInstanceError: session.delete called on None" := by
  constructor <;> rfl

/-- C4: evaluation at the failing input.  An authenticated, validating
comment submission on the detail page of the absent post id 5 inserts
a Comment row whose parent-post reference is null, violating the
invariant that every inserted Comment references exactly one existing
Post. -/
theorem comment_on_missing_post_has_null_parent :
    (db_alice.posts.find? fun p => p.id == 5) = none ∧
    show_post 5 sample_comment_form (Session.loggedIn 1) db_alice =
      { db := { db_alice with
                  comments := [{ id := 1, text := "hi", authorId := some 1, postId := none }],
                  nextCommentId := 2 },
        session := Session.loggedIn 1, flashes := [], response := .render "post.html" } := by
  constructor <;> rfl

/-- C5: every registration submission whose email already exists in the
users table inserts nothing, leaves the whole store unchanged, and
redirects to the login page with a user-visible warning. -/
theorem register_duplicate_email_rejected (form : RegisterForm) (s : Session) (db : DB)
    (hv : form.validates = true)
    (hdup : (db.users.find? fun u => u.email == form.email).isSome = true) :
    register form s db =
      { db := db, session := s, flashes := [Flash.alreadySignedUp],
        response := .redirect .login } := by
  simp [register, hv, hdup]

/-- Witness for C5: registering again with the email of alice. -/
theorem register_duplicate_email_rejected_witness :
    ({ email := "a@x.com", password := "zz", name := "A2", validates := true } : RegisterForm).validates = true ∧
    (db_alice.users.find? fun u => u.email == "a@x.com").isSome = true ∧
    register { email := "a@x.com", password := "zz", name := "A2", validates := true }
        Session.anonymous db_alice =
      { db := db_alice, session := Session.anonymous, flashes := [Flash.alreadySignedUp],
        response := .redirect .login } :=
  ⟨rfl, rfl, register_duplicate_email_rejected _ _ _ rfl rfl⟩

/-- C6: every validating registration with a fresh email appends exactly
one new User row, whose stored password is the hasher output and not
the clear password, authenticates the session as the new identity, and
redirects to the public listing. -/
theorem register_fresh_email_creates_user (form : RegisterForm) (s : Session) (db : DB)
    (hv : form.validates = true)
    (hfresh : (db.users.find? fun u => u.email == form.email) = none) :
    register form s db =
      { db := { db with
                  users := db.users ++
                    [{ id := db.nextUserId, email := form.email,
                       password := generate_password_hash form.password "pbkdf2:sha256" 8,
                       name := form.name }],
                  nextUserId := db.nextUserId + 1 },
        session := .loggedIn db.nextUserId, flashes := [],
        response := .redirect .get_all_posts } ∧
    generate_password_hash form.password "pbkdf2:sha256" 8 ≠ form.password := by
  refine ⟨?_, generate_password_hash_ne_clear _ _ _⟩
  simp [register, hv, hfresh]

/-- Witness for C6: registering bob on the store holding alice. -/
theorem register_fresh_email_creates_user_witness :
    ({ email := "b@x.com", password := "secret", name := "Bob", validates := true } : RegisterForm).validates = true ∧
    (db_alice.users.find? fun u => u.email == "b@x.com") = none ∧
    (register { email := "b@x.com", password := "secret", name := "Bob", validates := true }
        Session.anonymous db_alice =
      { db := { db_alice with
                  users := db_alice.users ++
                    [{ id := 2, email := "b@x.com",
                       password := generate_password_hash "secret" "pbkdf2:sha256" 8,
                       name := "Bob" }],
                  nextUserId := 3 },
        session := .loggedIn 2, flashes := [],
        response := .redirect .get_all_posts } ∧
     generate_password_hash "secret" "pbkdf2:sha256" 8 ≠ "secret") :=
  ⟨rfl, rfl, register_fresh_email_creates_user _ _ _ rfl rfl⟩

/-- C7: every validating comment submission by an unauthenticated caller
leaves the store unchanged (in particular no Comment row is inserted),
flashes the login warning, and redirects to the login page; the drafted
text appears nowhere in the state or the response. -/
theorem comment_unauthenticated_rejected (pid : Nat) (form : CommentForm) (db : DB)
    (hv : form.validates = true) :
    show_post pid form Session.anonymous db =
      { db := db, session := Session.anonymous, flashes := [Flash.needLoginToComment],
        response := .redirect .login } := by
  simp [show_post, hv]

/-- Witness for C7: an anonymous comment on the existing post 1. -/
theorem comment_unauthenticated_rejected_witness :
    sample_comment_form.validates = true ∧
    show_post 1 sample_comment_form Session.anonymous db_post1 =
      { db := db_post1, session := Session.anonymous, flashes := [Flash.needLoginToComment],
        response := .redirect .login } :=
  ⟨rfl, comment_unauthenticated_rejected 1 sample_comment_form db_post1 rfl⟩

/-- C8: every login submission whose email matches a stored user but
whose password fails the hash check establishes no session, leaves the
store unchanged, flashes the incorrect-password warning and re-renders
the login form instead of redirecting. -/
theorem login_wrong_password_rerenders (form : LoginForm) (s : Session) (db : DB) (user : User)
    (hfind : (db.users.find? fun u => u.email == form.email) = some user)
    (hpw : check_password_hash user.password form.password = false) :
    login form s db =
      { db := db, session := s, flashes := [Flash.incorrectPassword],
        response := .render "login.html" } := by
  simp [login, method_object_truthiness, hfind, hpw]

/-- Witness for C8: a wrong password against the stored hash of alice. -/
theorem login_wrong_password_rerenders_witness :
    (db_alice.users.find? fun u => u.email == "a@x.com") = some alice ∧
    check_password_hash alice.password "wrong" = false ∧
    login { email := "a@x.com", password := "wrong", validates := true }
        Session.anonymous db_alice =
      { db := db_alice, session := Session.anonymous, flashes := [Flash.incorrectPassword],
        response := .render "login.html" } :=
  ⟨rfl, rfl, login_wrong_password_rerenders _ _ _ alice rfl rfl⟩

/-- C9: every validating edit by the admin of an existing post replaces
exactly the four editable fields of that row while keeping its id, its
author reference, its original date and every other row unchanged, and
redirects to the detail page of that very post. -/
theorem edit_post_updates_four_fields (pid : Nat) (form : CreatePostForm) (db : DB)
    (post : BlogPost)
    (hfind : (db.posts.find? fun p => p.id == pid) = some post)
    (hv : form.validates = true) :
    edit_post pid form (Session.loggedIn 1) db = .ok
      { db := { db with
                  posts := db.posts.map (fun p =>
                    if p.id == pid then
                      { post with
                          title := form.title, subtitle := form.subtitle,
                          imgUrl := form.imgUrl, body := form.body }
                    else p) },
        session := Session.loggedIn 1, flashes := [],
        response := .redirect (.show_post post.id) } := by
  simp [edit_post, admin_only, admin_denied, edit_post_inner, hfind, hv]

/-- Witness for C9: the admin edits the existing post 1. -/
theorem edit_post_updates_four_fields_witness :
    (db_post1.posts.find? fun p => p.id == 1) = some post1 ∧
    sample_post_form.validates = true ∧
    edit_post 1 sample_post_form (Session.loggedIn 1) db_post1 = .ok
      { db := { db_post1 with
                  posts := db_post1.posts.map (fun p =>
                    if p.id == 1 then
                      { post1 with
                          title := sample_post_form.title,
                          subtitle := sample_post_form.subtitle,
                          imgUrl := sample_post_form.imgUrl,
                          body := sample_post_form.body }
                    else p) },
        session := Session.loggedIn 1, flashes := [],
        response := .redirect (.show_post post1.id) } :=
  ⟨rfl, rfl, edit_post_updates_four_fields 1 sample_post_form db_post1 post1 rfl rfl⟩

/-- C10: evaluation at the failing configuration.  With SECRET_KEY
absent from the environment, startup continues and binds the secret to
the silent default None; the process never terminates with a
diagnostic, contradicting the fail-fast requirement. -/
theorem startup_missing_secret_key_continues :
    app_startup (fun _ => none) = StartupOutcome.started none := rfl
